import Mathlib

/-!
Verification of the momento-python-redis-client compatibility shim.

This development shallowly embeds the command-translation and response-mapping
layer of the repository:

* `convert_momento_to_redis_errors` (utils/error_utils.py), the error
  translator, including the semantics of the Python `match` statement it uses
  (value patterns compare with `==` against the class object);
* the `MomentoRedis` wrapper variant (src/momento_python_redis_client/
  momento_redis_wrapper.py), whose optional arguments default to the Python
  `Ellipsis` object (`= ...`), which is truthy and is not `None`;
* the `MomentoRedis` client variant (src/momento_python_redis_client/
  momento_redis_client.py), whose optional arguments default to `None`/`False`.

The external Momento `CacheClient` is modelled as a store of byte strings,
following the consumed-interface description of the spec (section 6): each
operation returns a closed discriminated outcome (hit/miss/error,
success/error, stored/not-stored/error), `delete` is idempotent and reports
success whether or not the key was present, and text payloads are stored as
their UTF-8 encoding.  Expiry lapse over time is not modelled: the model
tracks the duration the adapter passes to the remote call, not the passage of
time afterwards.
-/

/-- Byte strings: a Python `bytes` value as a list of byte values. -/
abbrev Bytes := List Nat

/-- UTF-8 encoding of a single character, by code point. -/
def utf8EncodeChar (c : Char) : List Nat :=
  let n := c.toNat
  if n < 0x80 then [n]
  else if n < 0x800 then
    [0xC0 ||| (n >>> 6), 0x80 ||| (n &&& 0x3F)]
  else if n < 0x10000 then
    [0xE0 ||| (n >>> 12), 0x80 ||| ((n >>> 6) &&& 0x3F), 0x80 ||| (n &&& 0x3F)]
  else
    [0xF0 ||| (n >>> 18), 0x80 ||| ((n >>> 12) &&& 0x3F),
     0x80 ||| ((n >>> 6) &&& 0x3F), 0x80 ||| (n &&& 0x3F)]

/-- UTF-8 encoding of a Python text string, as bytes. -/
def utf8 (s : String) : Bytes :=
  s.data.foldr (fun c r => utf8EncodeChar c ++ r) []

/-- A Python optional argument in the wrapper variant, whose default value is
the `Ellipsis` object (`= ...`, as in redis-py type stubs), not `None`. -/
inductive PyOpt (α : Type) where
  | ellipsisV : PyOpt α
  | noneV : PyOpt α
  | someV (a : α) : PyOpt α
deriving DecidableEq

/-- Python `x is not None`: true for `Ellipsis` and for a real value. -/
def PyOpt.isNotNone {α : Type} : PyOpt α → Bool
  | .noneV => false
  | _ => true

/-- Python truthiness of an optional flag: `bool(Ellipsis)` is `True`,
`bool(None)` is `False`. -/
def PyOpt.truthy : PyOpt Bool → Bool
  | .ellipsisV => true
  | .noneV => false
  | .someV b => b

/-- The Momento SDK exception classes distinguished by the error translator,
plus a representative of every other cause. -/
inductive SdkExcClass where
  | timeoutException
  | authenticationException
  | serverUnavailableException
  | otherException
deriving DecidableEq

/-- A Python value that can appear as `err.inner_exception`: either the
exception class object itself, or an exception instance of that class (the
SDK's error responses carry an `SdkException` instance).  `objId`
distinguishes instance objects. -/
inductive PyExcVal where
  | classObj (c : SdkExcClass)
  | instObj (c : SdkExcClass) (objId : Nat)
deriving DecidableEq

/-- Python `==` on these values.  Exception classes do not override
`__eq__`, so comparison is object identity: a class object equals only the
same class object, an instance equals only the same instance, and an
instance never equals a class object. -/
def pyEq : PyExcVal → PyExcVal → Bool
  | .classObj a, .classObj b => a = b
  | .instObj a i, .instObj b j => a = b ∧ i = j
  | _, _ => false

/-- The redis-py exception type surfaced to the caller (outermost type of the
nested exception the translator builds). -/
inductive RedisErrorTy where
  | timeoutError
  | authenticationError
  | connectionError
  | redisError
deriving DecidableEq

/-- Embeds `convert_momento_to_redis_errors` (utils/error_utils.py).  The
source is a Python `match err.inner_exception` whose arms
`case errors.TimeoutException:` etc. are value patterns: each tests
`inner_exception == errors.TimeoutException`, a comparison of the
inner-exception value with the exception class object itself. -/
def convert_momento_to_redis_errors (inner : PyExcVal) : RedisErrorTy :=
  if pyEq inner (.classObj .timeoutException) then .timeoutError
  else if pyEq inner (.classObj .authenticationException) then .authenticationError
  else if pyEq inner (.classObj .serverUnavailableException) then .connectionError
  else .redisError

/-- An exception the adapter can raise, by its Python type. -/
inductive PyError where
  | notImplementedError (msg : String)
  | redisError (e : RedisErrorTy)
  | typeError
  | unknownException
deriving DecidableEq

/-- The suffix appended to every NotImplementedError message (NOT_IMPL_ERR in
the source). -/
def NOT_IMPL_ERR : String :=
  " is not yet implemented in MomentoRedisClient. Please drop by our Discord ..."

/-- The remote cache's state: scalar key-value pairs and list structures,
keyed by byte strings.  Models the data held by the external Momento cache
for the operations the claims exercise. -/
structure CacheState where
  kv : List (Bytes × Bytes)
  lists : List (Bytes × List Bytes)
deriving DecidableEq

/-- Scalar lookup in the remote store. -/
def lookupKV (st : CacheState) (k : Bytes) : Option Bytes :=
  (st.kv.find? (fun p => p.1 = k)).map (·.2)

/-- Overwrite a scalar key in the remote store. -/
def setKV (st : CacheState) (k v : Bytes) : CacheState :=
  ⟨(k, v) :: st.kv.filter (fun p => ¬ (p.1 = k)), st.lists⟩

/-- Remove a scalar key from the remote store. -/
def removeKV (st : CacheState) (k : Bytes) : CacheState :=
  ⟨st.kv.filter (fun p => ¬ (p.1 = k)), st.lists⟩

/-- List lookup in the remote store; a missing list reads as empty. -/
def lookupList (st : CacheState) (k : Bytes) : List Bytes :=
  ((st.lists.find? (fun p => p.1 = k)).map (·.2)).getD []

/-- A value a caller may pass to `set`: Python text, bytes, or int. -/
inductive RValue where
  | str (s : String)
  | bytes (b : Bytes)
  | int (n : Int)
deriving DecidableEq

/-- The payload the remote client stores for a value: text is stored as its
UTF-8 encoding, bytes are stored as-is.  (The adapters stringify ints before
transmission; the int case is kept total by stringifying as well.) -/
def RValue.stored : RValue → Bytes
  | .str s => utf8 s
  | .bytes b => b
  | .int n => utf8 (toString n)

/-- Outcome of the remote `get` operation. -/
inductive CacheGetRsp where
  | hit (v : Bytes)
  | miss
  | error (e : PyExcVal)
deriving DecidableEq

/-- Models `CacheClient.get`: hit with the stored bytes, or miss. -/
def cacheClientGet (st : CacheState) (k : Bytes) : CacheGetRsp :=
  match lookupKV st k with
  | some v => .hit v
  | none => .miss

/-- Outcome of the remote `set` operation. -/
inductive CacheSetRsp where
  | success
  | error (e : PyExcVal)
deriving DecidableEq

/-- Models `CacheClient.set`: unconditional overwrite.  The ttl argument the
adapters pass only affects expiry over time, which the model does not track. -/
def cacheClientSet (st : CacheState) (k : Bytes) (v : RValue) :
    CacheSetRsp × CacheState :=
  (.success, setKV st k v.stored)

/-- Outcome of the remote conditional-write operation. -/
inductive CacheSetIfNotExistsRsp where
  | stored
  | notStored
  | error (e : PyExcVal)
deriving DecidableEq

/-- Models `CacheClient.set_if_not_exists`: stores only when the key is
absent. -/
def cacheClientSetIfNotExists (st : CacheState) (k : Bytes) (v : RValue) :
    CacheSetIfNotExistsRsp × CacheState :=
  match lookupKV st k with
  | some _ => (.notStored, st)
  | none => (.stored, setKV st k v.stored)

/-- Outcome of the remote `delete` operation: success or error only.  The
remote delete is idempotent: it reports success whether or not the key was
present. -/
inductive CacheDeleteRsp where
  | success
  | error (e : PyExcVal)
deriving DecidableEq

/-- Models `CacheClient.delete`. -/
def cacheClientDelete (st : CacheState) (k : Bytes) :
    CacheDeleteRsp × CacheState :=
  (.success, removeKV st k)

/-- Outcome of the remote list-concatenate-front operation. -/
inductive CacheListConcatenateFrontRsp where
  | success (listLength : Nat)
  | error (e : PyExcVal)
deriving DecidableEq

/-- Models `CacheClient.list_concatenate_front`: prepends the given values,
in the given order, to the front of the stored list. -/
def cacheClientListConcatenateFront (st : CacheState) (k : Bytes)
    (vs : List Bytes) : CacheListConcatenateFrontRsp × CacheState :=
  let newList := vs ++ lookupList st k
  (.success newList.length,
   ⟨st.kv, (k, newList) :: st.lists.filter (fun p => ¬ (p.1 = k))⟩)

/-- Outcome of the remote dictionary-get-fields operation. -/
inductive CacheDictionaryGetFieldsRsp where
  | hit (values : List Bytes)
  | miss
  | error (e : PyExcVal)
deriving DecidableEq

/-- Outcome of the remote sorted-set increment-score operation. -/
inductive CacheSortedSetIncrementScoreRsp where
  | success (score : Int)
  | error (e : PyExcVal)
deriving DecidableEq

/-- Remote sort order parameter (momento.requests.SortOrder). -/
inductive SortOrderTy where
  | ascending
  | descending
deriving DecidableEq

/-- The remote sorted-set fetch request an adapter method issues: either a
fetch by rank or a fetch by score, with the exact bound, order, offset and
count arguments passed to the Momento call. -/
inductive ZFetchCall where
  | byRank (startRank endRank : Int) (order : SortOrderTy)
  | byScore (minScore maxScore : Int) (order : SortOrderTy)
      (offset count : Option Int)
deriving DecidableEq

namespace MomentoRedisWrapper

/-- Embeds `MomentoRedis.setnx` from momento_redis_wrapper.py: delegates to
the remote conditional write, maps Stored to True, NotStored to False, and
raises the translated error on an Error outcome. -/
def setnx (st : CacheState) (name : Bytes) (value : RValue) :
    Except PyError (Bool × CacheState) :=
  match cacheClientSetIfNotExists st name value with
  | (.stored, st') => .ok (true, st')
  | (.notStored, st') => .ok (false, st')
  | (.error e, _) => .error (.redisError (convert_momento_to_redis_errors e))

/-- Embeds the ttl derivation of the wrapper's `set` (the chain
`if ex is not None: ttl = ex / elif px is not None: ... / elif keepttl:`).
All four expiry parameters default to `Ellipsis`, and `Ellipsis is not None`
is true, so an omitted `ex` still takes the first branch and leaves the
`Ellipsis` object as the ttl.  `now` is the current epoch time in whole
seconds (`time.time()` truncated).  Division mirrors Python `int(x / n)`:
truncation toward zero. -/
def setTtl (ex px exat pxat : PyOpt Int) (keepttl : PyOpt Bool) (now : Int) :
    Except PyError (PyOpt Int) :=
  if ex.isNotNone then .ok ex
  else if px.isNotNone then
    match px with
    | .someV p => .ok (.someV (Int.tdiv p 1000))
    | _ => .error .typeError
  else if exat.isNotNone then
    match exat with
    | .someV t => .ok (.someV (t - now))
    | _ => .error .typeError
  else if pxat.isNotNone then
    match pxat with
    | .someV t => .ok (.someV (t - Int.tdiv now 1000))
    | _ => .error .typeError
  else if keepttl.truthy then
    .error (.notImplementedError ("SetOption KEEPTTL" ++ NOT_IMPL_ERR))
  else .ok .noneV

/-- Embeds `MomentoRedis.set` from momento_redis_wrapper.py.  Every optional
parameter defaults to the `Ellipsis` object.  After stringifying an int value
and deriving the ttl, the method tests `if nx:` — and `bool(Ellipsis)` is
true, so with `nx` omitted the call is delegated to `setnx`; only after that
come the `elif xx:` and `if get:` NotImplementedError branches and, last, the
unconditional remote set. -/
def set (st : CacheState) (name : Bytes) (value : RValue)
    (ex px : PyOpt Int) (nx xx keepttl get : PyOpt Bool)
    (exat pxat : PyOpt Int) (now : Int) :
    Except PyError (Bool × CacheState) :=
  let value' := match value with
    | .int n => RValue.str (toString n)
    | v => v
  match setTtl ex px exat pxat keepttl now with
  | .error e => .error e
  | .ok _ttl =>
    if nx.truthy then setnx st name value'
    else if xx.truthy then
      .error (.notImplementedError ("SetOption XX" ++ NOT_IMPL_ERR))
    else if get.truthy then
      .error (.notImplementedError ("SetOption GET" ++ NOT_IMPL_ERR))
    else
      match cacheClientSet st name value' with
      | (.error e, _) => .error (.redisError (convert_momento_to_redis_errors e))
      | (.success, st') => .ok (true, st')

/-- Embeds `MomentoRedis.get` from momento_redis_wrapper.py: Hit returns the
value bytes, Miss returns None, Error raises the translated error. -/
def get (st : CacheState) (name : Bytes) : Except PyError (Option Bytes) :=
  match cacheClientGet st name with
  | .hit v => .ok (some v)
  | .miss => .ok none
  | .error e => .error (.redisError (convert_momento_to_redis_errors e))

/-- Embeds the response handling of `MomentoRedis.hmget` from
momento_redis_wrapper.py: the method has a single `if` arm for the Hit
variant and no Miss, Error or else arm, so any other outcome falls off the
end of the method and Python returns None. -/
def hmget_handle (rsp : CacheDictionaryGetFieldsRsp) :
    Except PyError (Option (List Bytes)) :=
  match rsp with
  | .hit vs => .ok (some vs)
  | .miss => .ok none
  | .error _ => .ok none

/-- Embeds the response handling of `MomentoRedis.zincrby` from
momento_redis_wrapper.py: the Success arm returns the score; the Error arm
evaluates `convert_momento_to_redis_errors(rsp)` but has no `raise`, so its
result is discarded and the method returns None. -/
def zincrby_handle (rsp : CacheSortedSetIncrementScoreRsp) :
    Except PyError (Option Int) :=
  match rsp with
  | .success s => .ok (some s)
  | .error e =>
    let _discarded := convert_momento_to_redis_errors e
    .ok none

/-- Embeds `MomentoRedis.lpush` from momento_redis_wrapper.py: reverses the
supplied values, issues one remote list_concatenate_front call, and returns
the length of the (reversed) value list on Success. -/
def lpush (st : CacheState) (name : Bytes) (values : List Bytes) :
    Except PyError (Nat × CacheState) :=
  let values' := values.reverse
  match cacheClientListConcatenateFront st name values' with
  | (.success _, st') => .ok (values'.length, st')
  | (.error e, _) => .error (.redisError (convert_momento_to_redis_errors e))

/-- Embeds the remote fetch request constructed by `MomentoRedis.zrange`
from momento_redis_wrapper.py: sort order is ascending unless `desc`; the
inclusive redis end index is corrected to the exclusive momento one by
`end += 1`; the byscore branch passes start/end as min_score/max_score with
the sort order overridden to DESCENDING; the rank branch passes the derived
sort order. -/
def zrangeCall (start endIdx : Int) (desc byscore : Bool)
    (offset num : Option Int) : ZFetchCall :=
  let sortOrder := if desc then SortOrderTy.descending else SortOrderTy.ascending
  let endIdx' := endIdx + 1
  if byscore then .byScore start endIdx' .descending offset num
  else .byRank start endIdx' sortOrder

/-- Embeds the remote fetch request constructed by
`MomentoRedis.zrangebyscore`: min/max passed through in order, sort order
DESCENDING. -/
def zrangebyscoreCall (min' max' : Int) (start num : Option Int) : ZFetchCall :=
  .byScore min' max' .descending start num

/-- Embeds the remote fetch request constructed by
`MomentoRedis.zrevrangebyscore`: the caller's min/max are passed with the
bound arguments swapped (min_score=max, max_score=min), sort order
DESCENDING. -/
def zrevrangebyscoreCall (min' max' : Int) (start num : Option Int) :
    ZFetchCall :=
  .byScore max' min' .descending start num

end MomentoRedisWrapper

/-- A Python value that may be passed as an expiry argument to the client
variant's `set`: an int, a `datetime.timedelta` (a duration, held in
seconds), or a `datetime.datetime` (held as seconds since the epoch).
Rationals stand in for Python's real-valued times. -/
inductive PyTime where
  | intV (n : Int)
  | delta (seconds : ℚ)
  | datetimeV (epochSeconds : ℚ)
deriving DecidableEq

/-- Python `int()` on an exact rational: truncation toward zero. -/
def truncQ (q : ℚ) : Int := Int.tdiv q.num q.den

namespace MomentoRedisClient

/-- Embeds the ttl derivation of `MomentoRedis.set` from
momento_redis_client.py (defaults are `None` here, so at most one branch
fires).  `now` is the current epoch time in seconds (`time.time()` /
`datetime.datetime.now()`).  Results are durations in seconds:
`ex` int becomes `timedelta(seconds=ex)`; `px` int becomes
`timedelta(seconds=int(px / 1000))`; `exat` int becomes
`timedelta(seconds=exat - time.time())`; `pxat` int becomes
`timedelta(seconds=pxat - time.time())` — the source subtracts epoch seconds
from an epoch-milliseconds target.  An `ex` of an unexpected type raises
UnknownException; unexpected `px`/`exat` types leave the ttl None; a
non-int non-datetime `pxat` hits `pxat - datetime.now()`, a TypeError. -/
def setTtl (ex px exat pxat : Option PyTime) (now : ℚ) :
    Except PyError (Option ℚ) :=
  match ex with
  | some (.intV n) => .ok (some (n : ℚ))
  | some (.delta d) => .ok (some d)
  | some (.datetimeV _) => .error .unknownException
  | none =>
    match px with
    | some (.intV p) => .ok (some ((truncQ ((p : ℚ) / 1000) : Int) : ℚ))
    | some (.delta d) => .ok (some d)
    | some (.datetimeV _) => .ok none
    | none =>
      match exat with
      | some (.intV t) => .ok (some ((t : ℚ) - now))
      | some (.datetimeV t) => .ok (some (t - now))
      | some (.delta _) => .ok none
      | none =>
        match pxat with
        | some (.intV t) => .ok (some ((t : ℚ) - now))
        | some (.datetimeV t) => .ok (some (t - now))
        | some (.delta _) => .error .typeError
        | none => .ok none

/-- Embeds `MomentoRedis.get` from momento_redis_client.py: Hit returns the
value bytes, Miss returns None, Error raises the translated error (the
remaining else arm raises UnknownException; the modelled outcome type is
closed, so it cannot fire here). -/
def get (st : CacheState) (name : Bytes) : Except PyError (Option Bytes) :=
  match cacheClientGet st name with
  | .hit v => .ok (some v)
  | .miss => .ok none
  | .error e => .error (.redisError (convert_momento_to_redis_errors e))

/-- Embeds `MomentoRedis.delete` from momento_redis_client.py: one remote
delete per name, counting the Success outcomes; non-Success outcomes are not
counted (and not raised). -/
def delete (st : CacheState) (names : List Bytes) : Nat × CacheState :=
  match names with
  | [] => (0, st)
  | n :: rest =>
    match cacheClientDelete st n with
    | (.success, st') =>
      ((delete st' rest).1 + 1, (delete st' rest).2)
    | (.error _, st') => delete st' rest

end MomentoRedisClient

/-- The empty remote store. -/
def st0 : CacheState := ⟨[], []⟩

lemma truncQ_intCast (e : Int) : truncQ ((e : ℚ)) = e := by
  simp [truncQ, Rat.num_intCast, Rat.den_intCast]

/-- Claim C1: the claim states that `set(k, v)` with no option flags followed
by `get(k)` returns `v` regardless of the key's prior contents.  On the
wrapper variant this fails: every option defaults to the truthy `Ellipsis`
object, so `set` with no flags delegates to `setnx`, which refuses to
overwrite an existing key.  Setting key `[107]` to `[1]`, then setting it to
`[2]`, leaves `[1]` in place: the second set returns False and `get` still
returns `[1]`, not `[2]`. -/
theorem wrapper_set_get_roundtrip_fails :
    MomentoRedisWrapper.set st0 [107] (.bytes [1]) .ellipsisV .ellipsisV
        .ellipsisV .ellipsisV .ellipsisV .ellipsisV .ellipsisV .ellipsisV 0
      = .ok (true, ⟨[([107], [1])], []⟩)
    ∧ MomentoRedisWrapper.set ⟨[([107], [1])], []⟩ [107] (.bytes [2])
        .ellipsisV .ellipsisV .ellipsisV .ellipsisV .ellipsisV .ellipsisV
        .ellipsisV .ellipsisV 0
      = .ok (false, ⟨[([107], [1])], []⟩)
    ∧ MomentoRedisWrapper.get ⟨[([107], [1])], []⟩ [107] = .ok (some [1])
    ∧ ([1] : Bytes) ≠ [2] :=
  ⟨rfl, rfl, rfl, by decide⟩

/-- Claim C2: the claim states that a timeout cause maps to a timeout error,
an authentication-failure cause to an authentication error, and a
service-unavailable cause to a connection error.  The translator's `match`
arms are Python value patterns: they compare the `inner_exception` — an
exception instance — with the exception class object using `==`, which is
always false, so every real error cause falls through to the generic
`RedisError`. -/
theorem translator_maps_instances_to_generic :
    convert_momento_to_redis_errors (.instObj .timeoutException 0)
      = .redisError
    ∧ convert_momento_to_redis_errors (.instObj .authenticationException 0)
      = .redisError
    ∧ convert_momento_to_redis_errors (.instObj .serverUnavailableException 0)
      = .redisError
    ∧ RedisErrorTy.redisError ≠ .timeoutError
    ∧ RedisErrorTy.redisError ≠ .authenticationError
    ∧ RedisErrorTy.redisError ≠ .connectionError := by
  decide

/-- Claim C3: the claim states that `set` with `xx=True`, `keepttl=True` or
`get=True` raises a not-implemented error.  On the wrapper variant none of
them raises: `nx` defaults to the truthy `Ellipsis`, so `if nx:` fires first
and the call is silently delegated to `setnx`, which stores the fresh key
and returns True. -/
theorem wrapper_set_unsupported_options_do_not_raise :
    MomentoRedisWrapper.set st0 [107] (.str "v") .ellipsisV .ellipsisV
        .ellipsisV (.someV true) .ellipsisV .ellipsisV .ellipsisV .ellipsisV 0
      = .ok (true, ⟨[([107], utf8 "v")], []⟩)
    ∧ MomentoRedisWrapper.set st0 [107] (.str "v") .ellipsisV .ellipsisV
        .ellipsisV .ellipsisV (.someV true) .ellipsisV .ellipsisV .ellipsisV 0
      = .ok (true, ⟨[([107], utf8 "v")], []⟩)
    ∧ MomentoRedisWrapper.set st0 [107] (.str "v") .ellipsisV .ellipsisV
        .ellipsisV .ellipsisV .ellipsisV (.someV true) .ellipsisV .ellipsisV 0
      = .ok (true, ⟨[([107], utf8 "v")], []⟩) :=
  ⟨rfl, rfl, rfl⟩

/-- Claim C4: for every key not present in the remote store, `get` returns
None and does not raise. -/
theorem get_miss_returns_none (st : CacheState) (k : Bytes)
    (h : lookupKV st k = none) :
    MomentoRedisClient.get st k = .ok none := by
  simp [MomentoRedisClient.get, cacheClientGet, h]

/-- Witness for `get_miss_returns_none` at the empty store and key `[1]`. -/
theorem get_miss_returns_none_witness :
    lookupKV st0 [1] = none ∧ MomentoRedisClient.get st0 [1] = .ok none :=
  ⟨by decide, get_miss_returns_none st0 [1] (by decide)⟩

/-- Claim C5, counterexample: the claim states that for the absolute
epoch-milliseconds variant `pxat` the duration passed equals
`target_time - now` in consistent units.  With `pxat = 5000000` (epoch
milliseconds, i.e. 5000 s) at `now = 1000` s the consistent-units duration is
4000 s, but the code computes `pxat - time.time()` = 4999000, subtracting
epoch seconds from epoch milliseconds. -/
theorem client_set_ttl_pxat_units_mismatch :
    MomentoRedisClient.setTtl none none none (some (.intV 5000000)) 1000
      = .ok (some 4999000)
    ∧ (4999000 : ℚ) ≠ (5000000 : ℚ) / 1000 - 1000 := by
  constructor
  · show Except.ok (some ((5000000 : ℚ) - 1000)) = Except.ok (some 4999000)
    norm_num
  · norm_num

/-- Claim C5, amended: `ex` in relative seconds is passed through; `px` in
relative milliseconds is truncated to whole seconds, so `px = 1000 * ex`
yields the same duration as `ex`; `exat` (epoch seconds) yields
`exat - now`; and integer `pxat` (epoch milliseconds) yields `pxat - now`
with `now` in epoch seconds — the same subtraction as `exat`, in mismatched
units. -/
theorem client_set_ttl_derivation (e p xa pa : Int) (now : ℚ) :
    MomentoRedisClient.setTtl (some (.intV e)) none none none now
      = .ok (some (e : ℚ))
    ∧ MomentoRedisClient.setTtl none (some (.intV p)) none none now
      = .ok (some ((truncQ ((p : ℚ) / 1000) : Int) : ℚ))
    ∧ MomentoRedisClient.setTtl none (some (.intV (1000 * e))) none none now
      = .ok (some (e : ℚ))
    ∧ MomentoRedisClient.setTtl none none (some (.intV xa)) none now
      = .ok (some ((xa : ℚ) - now))
    ∧ MomentoRedisClient.setTtl none none none (some (.intV pa)) now
      = .ok (some ((pa : ℚ) - now)) := by
  refine ⟨rfl, rfl, ?_, rfl, rfl⟩
  have h : ((1000 * e : Int) : ℚ) / 1000 = (e : ℚ) := by
    push_cast
    rw [mul_comm]
    exact mul_div_cancel_right₀ _ (by norm_num)
  simp [MomentoRedisClient.setTtl, h, truncQ_intCast]

/-- Claim C6, counterexample: the claim states that `delete` returns the
number of keys actually present and removed.  With only key `[97]` present,
deleting `[97]` and `[98]` returns 2 — the number requested — although only
one key was present. -/
theorem client_delete_counts_requested_not_present :
    (MomentoRedisClient.delete ⟨[([97], [1])], []⟩ [[97], [98]]).1 = 2
    ∧ (([[97], [98]] : List Bytes).filter
        (fun k => (lookupKV ⟨[([97], [1])], []⟩ k).isSome)).length = 1
    ∧ (2 : Nat) ≠ 1 := by
  decide

/-- Claim C6, amended: `delete` returns the number of keys requested — the
remote delete is idempotent and reports success whether or not the key was
present, and the adapter counts the success outcomes. -/
theorem client_delete_returns_requested_count (st : CacheState)
    (names : List Bytes) :
    (MomentoRedisClient.delete st names).1 = names.length := by
  induction names generalizing st with
  | nil => rfl
  | cons n rest ih =>
    simp [MomentoRedisClient.delete, cacheClientDelete, ih]

/-- Claim C7, counterexample: the claim states that the ascending/descending
flag is translated into the remote sort-order parameter, ascending when the
descending flag is false.  The by-score branch of `zrange` overrides the
derived order: with `desc = False` and `byscore = True` the remote call is
issued with DESCENDING. -/
theorem zrange_byscore_order_overridden :
    MomentoRedisWrapper.zrangeCall 0 5 false true none none
      = .byScore 0 6 .descending none none
    ∧ SortOrderTy.descending ≠ .ascending := by
  decide

/-- Claim C7, amended: the rank-based branch of `zrange` adds one to the
inclusive redis end index (the remote end is exclusive) and passes ascending
order exactly when the descending flag is false; the by-score branch of
`zrange` applies the same end adjustment to the score bound but always
passes descending order; `zrangebyscore` passes the caller's min/max in
order and `zrevrangebyscore` passes them swapped, both always descending. -/
theorem sorted_set_range_translation (s e : Int) (desc : Bool)
    (mn mx : Int) (off cnt : Option Int) :
    MomentoRedisWrapper.zrangeCall s e desc false off cnt
      = .byRank s (e + 1)
          (if desc then .descending else .ascending)
    ∧ MomentoRedisWrapper.zrangeCall s e desc true off cnt
      = .byScore s (e + 1) .descending off cnt
    ∧ MomentoRedisWrapper.zrangebyscoreCall mn mx off cnt
      = .byScore mn mx .descending off cnt
    ∧ MomentoRedisWrapper.zrevrangebyscoreCall mn mx off cnt
      = MomentoRedisWrapper.zrangebyscoreCall mx mn off cnt :=
  ⟨rfl, rfl, rfl, rfl⟩

/-- Claim C8: the claim states that every remote outcome is handled
exhaustively and an unhandled one raises a fatal unknown-response condition,
never a silent fall-through returning None.  The wrapper's `hmget` handles
only the Hit arm: an Error outcome (and a Miss) falls off the end of the
method, which returns None without raising — the error is silently
swallowed. -/
theorem wrapper_hmget_swallows_error :
    MomentoRedisWrapper.hmget_handle (.error (.instObj .timeoutException 0))
      = .ok none
    ∧ MomentoRedisWrapper.hmget_handle .miss = .ok none :=
  ⟨rfl, rfl⟩

/-- Claim C9: the claim states that an error outcome makes the call raise the
mapped exception, in particular for `zincrby`.  The `zincrby` Error arm
evaluates the translated error but has no `raise`: the method returns None
normally. -/
theorem wrapper_zincrby_returns_none_on_error :
    MomentoRedisWrapper.zincrby_handle
        (.error (.instObj .serverUnavailableException 0))
      = .ok none
    ∧ MomentoRedisWrapper.zincrby_handle
        (.error (.instObj .otherException 3))
      = .ok none :=
  ⟨rfl, rfl⟩

set_option maxRecDepth 4000 in
/-- Claim C10: `lpush(name, v1, ..., vn)` issues one remote
concatenate-front call with the values reversed, so the stored list becomes
`vs.reverse ++ old`: the last supplied value is at the head and the first
supplied value is deepest among the pushed values, and the call returns `n`. -/
theorem wrapper_lpush_reverses_and_counts (st : CacheState) (name : Bytes)
    (vs : List Bytes) (h : vs ≠ []) :
    (∃ st', MomentoRedisWrapper.lpush st name vs
        = .ok (vs.length, st')
      ∧ lookupList st' name = vs.reverse ++ lookupList st name)
    ∧ (vs.reverse ++ lookupList st name).head? = vs.getLast?
    ∧ vs.getLast? ≠ none := by
  refine ⟨⟨⟨st.kv, (name, vs.reverse ++ lookupList st name) ::
      st.lists.filter (fun p => ¬ (p.1 = name))⟩, ?_, ?_⟩, ?_, ?_⟩
  · have e1 : MomentoRedisWrapper.lpush st name vs
        = .ok (vs.reverse.length, ⟨st.kv,
            (name, vs.reverse ++ lookupList st name) ::
              st.lists.filter (fun p => ¬ (p.1 = name))⟩) := rfl
    rw [List.length_reverse] at e1
    exact e1
  · rw [lookupList, List.find?_cons_of_pos _ (by simp)]
    rfl
  · rw [List.head?_append_of_ne_nil _ (by simpa using h)]
    exact List.head?_reverse vs
  · exact Option.isSome_iff_ne_none.mp (List.getLast?_isSome.mpr h)

/-- Witness for `wrapper_lpush_reverses_and_counts` at the empty store,
list name `[1]` and values `[[2], [3]]`. -/
theorem wrapper_lpush_reverses_and_counts_witness :
    (([[2], [3]] : List Bytes) ≠ [])
    ∧ ((∃ st', MomentoRedisWrapper.lpush st0 [1] [[2], [3]]
          = .ok (([[2], [3]] : List Bytes).length, st')
        ∧ lookupList st' [1]
          = ([[2], [3]] : List Bytes).reverse ++ lookupList st0 [1])
      ∧ (([[2], [3]] : List Bytes).reverse ++ lookupList st0 [1]).head?
          = ([[2], [3]] : List Bytes).getLast?
      ∧ ([[2], [3]] : List Bytes).getLast? ≠ none) :=
  ⟨by decide, wrapper_lpush_reverses_and_counts st0 [1] [[2], [3]] (by decide)⟩
